import Mathlib

/-!
Shallow embedding of `src/monzo-auth-server/server.py` (a Flask OAuth helper
server) and proofs of the specification claims about it.

Modelling conventions:
* Python strings are `List Char` (abbreviated `Str`); `Option Str` models a
  value that may be absent (`None` in Python, a missing form field or query
  parameter, a missing session key).
* The process-wide `STATE_TOKEN` (`secrets.token_urlsafe(32)`, line 22 of the
  source) is an opaque random string fixed at process start; every definition
  takes it as an explicit parameter `stateToken`.
* The Flask `session` dict is the `Session` structure holding the two keys the
  program ever touches; handlers return the (possibly updated) session.
* The outbound HTTP client (`requests.post` to the token endpoint) is a black
  box collaborator: its behaviour for the single potential call of a request is
  an `ExchangeOutcome` parameter, and each handler result carries the number of
  exchange calls it performed.
-/

namespace MonzoAuth

/-- Python strings are modelled as lists of characters. -/
abbrev Str := List Char

/-- Python truthiness of an optional string: `bool(x)` is `False` exactly when
`x` is `None` or the empty string. `not x` in the source is `!truthy x`. -/
def truthy (o : Option Str) : Bool :=
  !(o.getD []).isEmpty

/-- Rendering of an optional string inside a Python f-string:
`f"{x}"` prints `None` when `x` is `None` (as `token_data.get('access_token')`
does on line 161 of the source). -/
def pyOptStr : Option Str → Str
  | some s => s
  | none => "None".data

/-- Configuration constant, server.py line 19. -/
def REDIRECT_URI : Str := "http://localhost:8080/callback".data

/-- Translation of `generate_auth_url` (server.py lines 24-33): a plain
f-string interpolation, one `++` chunk per f-string segment. Note that no
percent-encoding of the interpolated values is performed. -/
def generate_auth_url (stateToken : Str) (client_id : Str) : Str :=
  "https://auth.monzo.com/?".data ++
  ("client_id=".data ++ client_id ++ "&".data) ++
  ("redirect_uri=".data ++ REDIRECT_URI ++ "&".data) ++
  "response_type=code&".data ++
  ("state=".data ++ stateToken)

/-- The two session keys the program ever reads or writes
(`session['client_id']`, `session['client_secret']`). -/
structure Session where
  client_id : Option Str
  client_secret : Option Str
deriving DecidableEq

/-- The POST form of the `/authorize` endpoint (`request.form.get`, lines
85-86). -/
structure Form where
  client_id : Option Str
  client_secret : Option Str
deriving DecidableEq

/-- Query parameters of the `/callback` request (`request.args.get`, lines
116-118). -/
structure CallbackParams where
  code : Option Str
  state : Option Str
  error : Option Str
deriving DecidableEq

/-- The parsed JSON body of the provider's token response; the program only
reads `access_token` and `refresh_token` (lines 161, 168, 195, 198). -/
structure TokenData where
  access_token : Option Str
  refresh_token : Option Str
deriving DecidableEq

/-- Behaviour of the black-box token-endpoint collaborator for the single
potential `requests.post` call of one `/callback` request: either an HTTP
response (status, raw text body and its parsed JSON) or a raised
`requests.RequestException` carrying a message. -/
inductive ExchangeOutcome where
  | response (status : Nat) (text : Str) (json : TokenData)
  | exception (msg : Str)
deriving DecidableEq

/-- An HTTP response of an HTML endpoint: status code and body. -/
structure Response where
  status : Nat
  body : Str
deriving DecidableEq

/-- A `jsonify` response: status code and the JSON object's fields in order. -/
structure JsonResponse where
  status : Nat
  fields : List (Str × Str)
deriving DecidableEq

/-- Outcome of the `/callback` validation chain (lines 109-129), one
constructor per early `return` plus the fall-through into the exchange. -/
inductive Outcome where
  | sessionExpired
  | authorizationDenied (error : Str)
  | stateMismatch
  | missingCode
  | valid (client_id client_secret code : Str)
deriving DecidableEq

/-- True exactly on the `valid` outcome, the only one that reaches the token
exchange. -/
def Outcome.isValid : Outcome → Bool
  | .valid _ _ _ => true
  | _ => false

/-- Python `str(n)` for the status code interpolated on line 233. -/
def natRepr (n : Nat) : Str := (Nat.repr n).data

/-- First f-string segment of the `/authorize` response body (lines 97-103). -/
def authorizeBodyLit0 : Str := "\n    <script>\n        window.location.href = \"".data

/-- Second f-string segment of the `/authorize` response body. -/
def authorizeBodyLit1 : Str := "\";\n    </script>\n    <h1>Redirecting to Monzo...</h1>\n    <p>If you are not redirected automatically, <a href=\"".data

/-- Third f-string segment of the `/authorize` response body. -/
def authorizeBodyLit2 : Str := "\">click here</a>.</p>\n    ".data

/-- Body of the `/authorize` success response (lines 97-103): an HTML page
whose script immediately redirects the browser to `auth_url`. -/
def authorizeBody (auth_url : Str) : Str :=
  authorizeBodyLit0 ++
  auth_url ++
  authorizeBodyLit1 ++
  auth_url ++
  authorizeBodyLit2

/-- Translation of the `/authorize` handler (server.py lines 82-103). -/
def authorize (stateToken : Str) (form : Form) (s : Session) :
    Response × Session :=
  let client_id := form.client_id
  let client_secret := form.client_secret
  if !truthy client_id || !truthy client_secret then
    (⟨400, "<h1>Error</h1><p>Both Client ID and Client Secret are required</p>".data⟩, s)
  else
    let s' : Session := ⟨some (client_id.getD []), some (client_secret.getD [])⟩
    let auth_url := generate_auth_url stateToken (client_id.getD [])
    (⟨200, authorizeBody auth_url⟩, s')

/-- Translation of the validation chain of the `/callback` handler (server.py
lines 109-129): each early `return` becomes an `Outcome` constructor, in the
source's order. -/
def callbackValidate (stateToken : Str) (s : Session) (q : CallbackParams) :
    Outcome :=
  if !truthy s.client_id || !truthy s.client_secret then
    .sessionExpired
  else if truthy q.error then
    .authorizationDenied (q.error.getD [])
  else if q.state ≠ some stateToken then
    .stateMismatch
  else if !truthy q.code then
    .missingCode
  else
    .valid (s.client_id.getD []) (s.client_secret.getD []) (q.code.getD [])

/-- Body returned on line 113 of the source. -/
def sessionExpiredBody : Str :=
  "<h1>Error</h1><p>Session expired. Please start over from the home page.</p>".data

/-- First f-string segment of the body returned on line 122. -/
def authorizationErrorLit0 : Str := "<h1>Authorization Error</h1><p>Error: ".data

/-- Second f-string segment of the body returned on line 122. -/
def authorizationErrorLit1 : Str := "</p>".data

/-- Body returned on line 122 of the source, interpolating the provider's
`error` query parameter. -/
def authorizationErrorBody (e : Str) : Str :=
  authorizationErrorLit0 ++ e ++ authorizationErrorLit1

/-- Body returned on line 126 of the source. -/
def stateMismatchBody : Str :=
  "<h1>Security Error</h1><p>Invalid state token</p>".data

/-- Body returned on line 129 of the source. -/
def missingCodeBody : Str :=
  "<h1>Error</h1><p>No authorization code received</p>".data

/-- First f-string segment of the body returned on line 233. -/
def exchangeFailedLit0 : Str := "<h1>Token Exchange Failed</h1><p>Status: ".data

/-- Second f-string segment of the body returned on line 233. -/
def exchangeFailedLit1 : Str := "</p><p>Error: ".data

/-- Third f-string segment of the body returned on line 233. -/
def exchangeFailedLit2 : Str := "</p>".data

/-- Body returned on line 233 of the source for a non-200 provider status,
interpolating the status code and the raw response text. -/
def exchangeFailedBody (status : Nat) (text : Str) : Str :=
  exchangeFailedLit0 ++ natRepr status ++ exchangeFailedLit1 ++ text ++
  exchangeFailedLit2

/-- First f-string segment of the body returned on line 236. -/
def requestErrorLit0 : Str := "<h1>Request Error</h1><p>Error: ".data

/-- Second f-string segment of the body returned on line 236. -/
def requestErrorLit1 : Str := "</p>".data

/-- Body returned on line 236 of the source for a `requests.RequestException`,
interpolating `str(e)`. -/
def requestErrorBody (msg : Str) : Str :=
  requestErrorLit0 ++ msg ++ requestErrorLit1

/-- Segment 0 of the token-success f-string (source lines 148-230). -/
def successBodyLit0 : Str := "\n            <h1>🎉 A couple more things</h1>\n\n            <ol>\n              <li>Go to your Monzo mobile app and press Approve</li>\n              <li>In your spreadsheet, go to Extensions → Apps Script → Project Settings → Script Properties and add the following:</li>\n            </ol>\n\n            <div style=\"background: #f8f9fa; border: 1px solid #dee2e6; border-radius: 5px; padding: 20px; margin: 20px 0;\">\n                <h3>🔑 Script Properties:</h3>\n                <table style=\"width: 100%; border-collapse: collapse;\">\n                    <tr style=\"border-bottom: 1px solid #dee2e6;\">\n                        <td style=\"padding: 10px; font-weight: bold; width: 200px;\">MONZO_ACCESS_TOKEN</td>\n                        <td style=\"padding: 10px; font-family: monospace; word-break: break-all;\">".data

/-- Segment 1 of the token-success f-string. -/
def successBodyLit1 : Str := "</td>\n                        <td style=\"padding: 10px;\">\n                            <button onclick=\"copyToClipboard('access_token')\" style=\"padding: 5px 10px; background: #28a745; color: white; border: none; border-radius: 3px; cursor: pointer;\">Copy</button>\n                        </td>\n                    </tr>\n                    <tr style=\"border-bottom: 1px solid #dee2e6;\">\n                        <td style=\"padding: 10px; font-weight: bold;\">MONZO_REFRESH_TOKEN</td>\n                        <td style=\"padding: 10px; font-family: monospace; word-break: break-all;\">".data

/-- Segment 2 of the token-success f-string. -/
def successBodyLit2 : Str := "</td>\n                        <td style=\"padding: 10px;\">\n                            <button onclick=\"copyToClipboard('refresh_token')\" style=\"padding: 5px 10px; background: #28a745; color: white; border: none; border-radius: 3px; cursor: pointer;\">Copy</button>\n                        </td>\n                    </tr>\n                    <tr style=\"border-bottom: 1px solid #dee2e6;\">\n                        <td style=\"padding: 10px; font-weight: bold;\">MONZO_CLIENT_ID</td>\n                        <td style=\"padding: 10px; font-family: monospace;\">".data

/-- Segment 3 of the token-success f-string. -/
def successBodyLit3 : Str := "</td>\n                        <td style=\"padding: 10px;\">\n                            <button onclick=\"copyToClipboard('client_id')\" style=\"padding: 5px 10px; background: #28a745; color: white; border: none; border-radius: 3px; cursor: pointer;\">Copy</button>\n                        </td>\n                    </tr>\n                    <tr>\n                        <td style=\"padding: 10px; font-weight: bold;\">MONZO_CLIENT_SECRET</td>\n                        <td style=\"padding: 10px; font-family: monospace;\">".data

/-- Segment 4 of the token-success f-string. -/
def successBodyLit4 : Str := "</td>\n                        <td style=\"padding: 10px;\">\n                            <button onclick=\"copyToClipboard('client_secret')\" style=\"padding: 5px 10px; background: #28a745; color: white; border: none; border-radius: 3px; cursor: pointer;\">Copy</button>\n                        </td>\n                    </tr>\n                </table>\n            </div>\n            \n            <script>\n                function copyToClipboard(type) \x7b\n                    let text = '';\n                    switch(type) \x7b\n                        case 'access_token':\n                            text = '".data

/-- Segment 5 of the token-success f-string. -/
def successBodyLit5 : Str := "';\n                            break;\n                        case 'refresh_token':\n                            text = '".data

/-- Segment 6 of the token-success f-string. -/
def successBodyLit6 : Str := "';\n                            break;\n                        case 'client_id':\n                            text = '".data

/-- Segment 7 of the token-success f-string. -/
def successBodyLit7 : Str := "';\n                            break;\n                        case 'client_secret':\n                            text = '".data

/-- Segment 8 of the token-success f-string. -/
def successBodyLit8 : Str := "';\n                            break;\n                    \x7d\n                    \n                    navigator.clipboard.writeText(text).then(function() \x7b\n                        // Show feedback\n                        const button = event.target;\n                        const originalText = button.textContent;\n                        button.textContent = 'Copied!';\n                        button.style.background = '#6c757d';\n                        setTimeout(function() \x7b\n                            button.textContent = originalText;\n                            button.style.background = '#28a745';\n                        \x7d, 2000);\n                    \x7d).catch(function(err) \x7b\n                        console.error('Could not copy text: ', err);\n                        alert('Failed to copy to clipboard');\n                    \x7d);\n                \x7d\n            </script>\n            \n            <div style=\"text-align: center; margin: 30px 0;\">\n                <a href=\"/\" style=\"display: inline-block; padding: 10px 20px; background: #007bff; color: white; text-decoration: none; border-radius: 4px;\">\n                    Start Over\n                </a>\n            </div>\n            ".data

/-- Body of the token-success response (source lines 148-230): the f-string
segments interleaved with its interpolations, in source order. The literal
braces of the embedded JavaScript (written `{{`/`}}` in the Python f-string)
are the `\x7b`/`\x7d` characters of the segments. -/
def successBody (client_id client_secret : Str) (token_data : TokenData) :
    Str :=
  successBodyLit0 ++
  pyOptStr token_data.access_token ++
  successBodyLit1 ++
  token_data.refresh_token.getD ("No refresh token (non-confidential client)".data) ++
  successBodyLit2 ++
  client_id ++
  successBodyLit3 ++
  client_secret ++
  successBodyLit4 ++
  pyOptStr token_data.access_token ++
  successBodyLit5 ++
  token_data.refresh_token.getD [] ++
  successBodyLit6 ++
  client_id ++
  successBodyLit7 ++
  client_secret ++
  successBodyLit8

/-- Translation of the `/callback` handler (server.py lines 105-236). The
validation chain is `callbackValidate`; on the `valid` outcome the handler
performs its single `requests.post` (lines 133-142), whose behaviour is the
`provider` parameter. The result carries the response, the session after the
request (the handler never writes the session) and the number of exchange
calls performed. -/
def callback (stateToken : Str) (s : Session) (q : CallbackParams)
    (provider : ExchangeOutcome) : Response × Session × Nat :=
  match callbackValidate stateToken s q with
  | .sessionExpired => (⟨400, sessionExpiredBody⟩, s, 0)
  | .authorizationDenied e => (⟨400, authorizationErrorBody e⟩, s, 0)
  | .stateMismatch => (⟨400, stateMismatchBody⟩, s, 0)
  | .missingCode => (⟨400, missingCodeBody⟩, s, 0)
  | .valid client_id client_secret _ =>
    match provider with
    | .exception msg => (⟨500, requestErrorBody msg⟩, s, 1)
    | .response status text json =>
      if status = 200 then
        (⟨200, successBody client_id client_secret json⟩, s, 1)
      else
        (⟨400, exchangeFailedBody status text⟩, s, 1)

/-- Translation of the `/api/token` handler (server.py lines 238-249). Note
that the source checks only `client_id` (line 242). -/
def api_token (stateToken : Str) (s : Session) : JsonResponse × Session :=
  if !truthy s.client_id then
    (⟨400, [("error".data, "No client credentials in session".data)]⟩, s)
  else
    (⟨200, [("auth_url".data, generate_auth_url stateToken (s.client_id.getD [])),
            ("redirect_uri".data, REDIRECT_URI),
            ("state_token".data, stateToken)]⟩, s)

/-- Substring occurrence: `needle` occurs contiguously inside `hay`. Used to
state that a response body contains an interpolated value. -/
def Occurs (needle hay : Str) : Prop :=
  ∃ l r, hay = l ++ needle ++ r

/-- Characters of `pre` up to (excluding) the first occurrence of `sep`. Part
of the standard query-string parser used by the round-trip claims. -/
def takeUntilChar (sep : Char) : Str → Str
  | [] => []
  | c :: rest => if c = sep then [] else c :: takeUntilChar sep rest

/-- Characters after the first occurrence of `sep`, or `none` when `sep` does
not occur. -/
def afterFirstChar (sep : Char) : Str → Option Str
  | [] => none
  | c :: rest => if c = sep then some rest else afterFirstChar sep rest

/-- Split at every occurrence of `sep` (occurrences removed); always returns at
least one chunk. -/
def splitOnChar (sep : Char) : Str → List Str
  | [] => [[]]
  | c :: rest =>
    if c = sep then
      [] :: splitOnChar sep rest
    else
      match splitOnChar sep rest with
      | [] => [[c]]
      | h :: t => (c :: h) :: t

/-- Value of a hexadecimal digit, or `none`. -/
def hexDigitVal (c : Char) : Option Nat :=
  if '0' ≤ c ∧ c ≤ '9' then some (c.toNat - '0'.toNat)
  else if 'a' ≤ c ∧ c ≤ 'f' then some (c.toNat - 'a'.toNat + 10)
  else if 'A' ≤ c ∧ c ≤ 'F' then some (c.toNat - 'A'.toNat + 10)
  else none

/-- Percent-decoding of an `application/x-www-form-urlencoded` value: `+`
becomes a space, `%` followed by two hex digits becomes that character, and
invalid escapes are left untouched (as `urllib.parse.unquote_plus` leaves
them). -/
def percentDecode : Str → Str
  | [] => []
  | '+' :: rest => ' ' :: percentDecode rest
  | '%' :: a :: b :: rest =>
    match hexDigitVal a, hexDigitVal b with
    | some hi, some lo => Char.ofNat (16 * hi + lo) :: percentDecode rest
    | _, _ => '%' :: percentDecode (a :: b :: rest)
  | c :: rest => c :: percentDecode rest

/-- Standard parse of a URL's query string (the essence of
`urllib.parse.parse_qsl` with blank values kept): take the part after the
first `?`, drop any fragment after `#`, split on `&`, split each piece at its
first `=` (pieces without `=` are dropped) and percent-decode key and value. -/
def parseQuery (url : Str) : List (Str × Str) :=
  match afterFirstChar '?' url with
  | none => []
  | some q =>
    (splitOnChar '&' (takeUntilChar '#' q)).filterMap fun piece =>
      match afterFirstChar '=' piece with
      | none => none
      | some v => some (percentDecode (takeUntilChar '=' piece), percentDecode v)

/-- The `client_id` recovered by parsing a URL's query string: the value of
the first `client_id` parameter. -/
def recoverClientId (url : Str) : Option Str :=
  List.lookup "client_id".data (parseQuery url)

/-- Serialization of a list of query parameters as `k=v` pairs joined by `&`
(no encoding), the expected shape of the builder's output in the claims. -/
def querySerialize : List (Str × Str) → Str
  | [] => []
  | [(k, v)] => k ++ '=' :: v
  | (k, v) :: rest => k ++ '=' :: v ++ '&' :: querySerialize rest

/-- The session holds a value for a key when a non-empty string is stored
under it (the spec's SessionCredentials invariant makes both fields non-empty,
so an absent or empty value means the credential is not held). -/
def holdsValue : Option Str → Bool
  | none => false
  | some v => !v.isEmpty

/-- The session holds credentials when it holds both a `client_id` and a
`client_secret`. -/
def holdsCredentials (s : Session) : Prop :=
  holdsValue s.client_id = true ∧ holdsValue s.client_secret = true

/-- Reachable-session invariant: the only writer of session credentials
(`/authorize`) stores both fields together and never stores an empty string,
so a session either holds both credentials or neither. -/
def SessionWF (s : Session) : Prop :=
  holdsValue s.client_id = holdsValue s.client_secret

/-- State and code checks of the reference callback state machine, as the
claim words them: the `state` parameter must be present and exactly equal to
the process StateToken, then the `code` parameter must be present and
non-empty. -/
def referenceTail (stateToken : Str) (s : Session) (q : CallbackParams) :
    Outcome :=
  match q.state with
  | none => .stateMismatch
  | some st =>
    if st ≠ stateToken then .stateMismatch
    else
      match q.code with
      | none => .missingCode
      | some c =>
        if c.isEmpty then .missingCode
        else .valid (s.client_id.getD []) (s.client_secret.getD []) c

/-- Reference state machine of the callback validation, written from the
claim's words: no held client_id or client_secret gives SessionExpired before
any query parameter is inspected; then a present non-empty `error` gives
AuthorizationDenied; then an absent or mismatched `state` gives StateMismatch;
then an absent or empty `code` gives MissingCode; otherwise the flow is
Valid. -/
def callbackReference (stateToken : Str) (s : Session) (q : CallbackParams) :
    Outcome :=
  if !holdsValue s.client_id || !holdsValue s.client_secret then
    .sessionExpired
  else
    match q.error with
    | some e =>
      if !e.isEmpty then .authorizationDenied e
      else referenceTail stateToken s q
    | none => referenceTail stateToken s q

/-- Sample value standing in for the random process StateToken in concrete
witnesses (its value is irrelevant to every theorem). -/
def sampleToken : Str := "ExampleStateToken123-_".data

/-- The claim's notion of a held credential coincides with the code's Python
truthiness check on the optional session value. -/
theorem holdsValue_eq_truthy (o : Option Str) : holdsValue o = truthy o := by
  cases o <;> simp [holdsValue, truthy]

/-- The callback validator only reaches the `valid` outcome when the `state`
query parameter equals the process StateToken exactly. -/
theorem validate_isValid_state (stateToken : Str) (s : Session)
    (q : CallbackParams)
    (h : (callbackValidate stateToken s q).isValid = true) :
    q.state = some stateToken := by
  unfold callbackValidate at h
  split_ifs at h with h1 h2 h3 h4 <;> simp_all [Outcome.isValid, not_not]

/-- The session returned by `api_token` is the session it was given. -/
theorem api_token_session (stateToken : Str) (s : Session) :
    (api_token stateToken s).2 = s := by
  unfold api_token
  split <;> rfl

/-- The session returned by `callback` is the session it was given. -/
theorem callback_session (stateToken : Str) (s : Session) (q : CallbackParams)
    (p : ExchangeOutcome) : (callback stateToken s q p).2.1 = s := by
  unfold callback
  rcases callbackValidate stateToken s q with _ | e | _ | _ | ⟨a, b, c⟩
  · rfl
  · rfl
  · rfl
  · rfl
  · rcases p with ⟨st, tx, js⟩ | m
    · by_cases h200 : st = 200 <;> simp [h200]
    · rfl

/-- C10: the GET `/callback` and GET `/api/token` handlers only read the
session and never write it: for every request to either endpoint the session's
stored `client_id` and `client_secret` after the request equal their values
before it (so POST `/authorize`, the only other handler that touches the
session, is the only one that modifies session credentials). -/
theorem c10_session_frame (stateToken : Str) (s : Session) (q : CallbackParams)
    (p : ExchangeOutcome) :
    (callback stateToken s q p).2.1 = s ∧ (api_token stateToken s).2 = s :=
  ⟨callback_session stateToken s q p, api_token_session stateToken s⟩

/-- C2: whenever the callback validation does not reach the `valid` outcome —
in particular whenever the `state` query parameter differs from the process
StateToken — the number of token-exchange calls performed by the `/callback`
handler is zero. -/
theorem c2_no_exchange_when_invalid (stateToken : Str) (s : Session)
    (q : CallbackParams) (p : ExchangeOutcome) :
    ((callbackValidate stateToken s q).isValid = false →
      (callback stateToken s q p).2.2 = 0) ∧
    (q.state ≠ some stateToken → (callback stateToken s q p).2.2 = 0) := by
  constructor
  · intro hinv
    unfold callback
    rcases h : callbackValidate stateToken s q with _ | e | _ | _ | ⟨a, b, c⟩
    · rfl
    · rfl
    · rfl
    · rfl
    · rw [h] at hinv
      simp [Outcome.isValid] at hinv
  · intro hstate
    cases hb : (callbackValidate stateToken s q).isValid with
    | true => exact absurd (validate_isValid_state stateToken s q hb) hstate
    | false =>
      unfold callback
      rcases h : callbackValidate stateToken s q with _ | e | _ | _ | ⟨a, b, c⟩
      · rfl
      · rfl
      · rfl
      · rfl
      · rw [h] at hb
        simp [Outcome.isValid] at hb

/-- Witness for C2 at a concrete request whose `state` differs from the
process StateToken: no exchange call is made. -/
theorem c2_witness :
    ((callbackValidate sampleToken ⟨some "i".data, some "s".data⟩
        ⟨some "good".data, some "wrong".data, none⟩).isValid = false ∧
      (callback sampleToken ⟨some "i".data, some "s".data⟩
        ⟨some "good".data, some "wrong".data, none⟩
        (.response 200 [] ⟨none, none⟩)).2.2 = 0) ∧
    (callback sampleToken ⟨some "i".data, some "s".data⟩
        ⟨some "good".data, some "wrong".data, none⟩
        (.exception "boom".data)).2.2 = 0 :=
  ⟨⟨by decide,
    (c2_no_exchange_when_invalid sampleToken ⟨some "i".data, some "s".data⟩
      ⟨some "good".data, some "wrong".data, none⟩
      (.response 200 [] ⟨none, none⟩)).1 (by decide)⟩,
    (c2_no_exchange_when_invalid sampleToken ⟨some "i".data, some "s".data⟩
      ⟨some "good".data, some "wrong".data, none⟩
      (.exception "boom".data)).2 (by decide)⟩

/-- C8: within one process (one StateToken) calling GET `/api/token` twice on
the same session returns identical responses — the session is unchanged by
the call, the second response equals the first, and when the session holds a
client_id the response's `state_token` field is the process StateToken and its
`auth_url` is built from the session's client_id, both times. -/
theorem c8_api_token_idempotent (stateToken : Str) (s : Session) :
    (api_token stateToken s).2 = s ∧
    (api_token stateToken (api_token stateToken s).2).1 =
      (api_token stateToken s).1 ∧
    (∀ cid, s.client_id = some cid → cid ≠ [] →
      (api_token stateToken s).1 =
        ⟨200, [("auth_url".data, generate_auth_url stateToken cid),
               ("redirect_uri".data, REDIRECT_URI),
               ("state_token".data, stateToken)]⟩) := by
  refine ⟨api_token_session stateToken s, ?_, ?_⟩
  · rw [api_token_session stateToken s]
  · intro cid hcid hne
    unfold api_token
    rw [hcid]
    simp [truthy, List.isEmpty_iff, hne]

/-- Witness for C8 at a concrete session holding credentials: both calls
return the same JSON, with `state_token` equal to the process StateToken. -/
theorem c8_witness :
    (api_token sampleToken ⟨some "abc".data, some "xyz".data⟩).1 =
      ⟨200, [("auth_url".data, generate_auth_url sampleToken "abc".data),
             ("redirect_uri".data, REDIRECT_URI),
             ("state_token".data, sampleToken)]⟩ ∧
    (api_token sampleToken
        (api_token sampleToken ⟨some "abc".data, some "xyz".data⟩).2).1 =
      (api_token sampleToken ⟨some "abc".data, some "xyz".data⟩).1 :=
  ⟨(c8_api_token_idempotent sampleToken ⟨some "abc".data, some "xyz".data⟩).2.2
      "abc".data rfl (by decide),
   (c8_api_token_idempotent sampleToken ⟨some "abc".data, some "xyz".data⟩).2.1⟩

/-- C6: for every POST `/authorize` request, a missing or empty `client_id`
or `client_secret` yields HTTP 400 with the session unchanged (no credentials
saved); otherwise both submitted values are stored into the session
(overwriting any prior values) and the 200 response redirects the user to the
authorization URL built from the submitted client_id. -/
theorem c6_authorize_handler (stateToken : Str) (f : Form) (s : Session) :
    ((truthy f.client_id = false ∨ truthy f.client_secret = false) →
      (authorize stateToken f s).1.status = 400 ∧
      (authorize stateToken f s).2 = s) ∧
    (∀ cid sec, f.client_id = some cid → f.client_secret = some sec →
      cid ≠ [] → sec ≠ [] →
      (authorize stateToken f s).1 =
        ⟨200, authorizeBody (generate_auth_url stateToken cid)⟩ ∧
      (authorize stateToken f s).2 = ⟨some cid, some sec⟩ ∧
      Occurs (generate_auth_url stateToken cid)
        (authorize stateToken f s).1.body) := by
  constructor
  · intro h
    have hc : (!truthy f.client_id || !truthy f.client_secret) = true := by
      rcases h with h | h <;> simp [h]
    unfold authorize
    simp [hc]
  · intro cid sec h1 h2 h3 h4
    have hbody : (authorize stateToken f s).1 =
        ⟨200, authorizeBody (generate_auth_url stateToken cid)⟩ := by
      unfold authorize
      rw [h1, h2]
      simp [truthy, List.isEmpty_iff, h3, h4]
    refine ⟨hbody, ?_, ?_⟩
    · unfold authorize
      rw [h1, h2]
      simp [truthy, List.isEmpty_iff, h3, h4]
    · rw [hbody]
      exact ⟨authorizeBodyLit0,
        authorizeBodyLit1 ++ generate_auth_url stateToken cid ++
          authorizeBodyLit2,
        by simp [authorizeBody, List.append_assoc]⟩

/-- Witness for C6: a complete form is saved into the session and the
response embeds the generated authorization URL; an incomplete form is
rejected with HTTP 400 and the session untouched. -/
theorem c6_witness :
    ((authorize sampleToken ⟨some "abc".data, some "xyz".data⟩ ⟨none, none⟩).1 =
      ⟨200, authorizeBody (generate_auth_url sampleToken "abc".data)⟩ ∧
     (authorize sampleToken ⟨some "abc".data, some "xyz".data⟩ ⟨none, none⟩).2 =
      ⟨some "abc".data, some "xyz".data⟩) ∧
    ((authorize sampleToken ⟨some "abc".data, none⟩ ⟨none, none⟩).1.status = 400 ∧
     (authorize sampleToken ⟨some "abc".data, none⟩ ⟨none, none⟩).2 =
      ⟨none, none⟩) :=
  ⟨⟨((c6_authorize_handler sampleToken ⟨some "abc".data, some "xyz".data⟩
        ⟨none, none⟩).2 "abc".data "xyz".data rfl rfl (by decide)
        (by decide)).1,
    ((c6_authorize_handler sampleToken ⟨some "abc".data, some "xyz".data⟩
        ⟨none, none⟩).2 "abc".data "xyz".data rfl rfl (by decide)
        (by decide)).2.1⟩,
   (c6_authorize_handler sampleToken ⟨some "abc".data, none⟩ ⟨none, none⟩).1
      (Or.inr (by decide))⟩

/-- The fresh session holds neither credential, so it satisfies the
reachable-session invariant. -/
theorem sessionWF_empty : SessionWF ⟨none, none⟩ := rfl

/-- The `/authorize` handler preserves the reachable-session invariant: it
either leaves the session unchanged or stores both submitted values, which
Python truthiness guarantees are non-empty. -/
theorem authorize_preserves_WF (stateToken : Str) (f : Form) (s : Session)
    (h : SessionWF s) : SessionWF (authorize stateToken f s).2 := by
  unfold authorize
  cases hci : truthy f.client_id with
  | false => simpa [hci] using h
  | true =>
    cases hcs : truthy f.client_secret with
    | false => simpa [hci, hcs] using h
    | true =>
      unfold truthy at hci hcs
      simp only [Bool.not_eq_true'] at hci hcs
      unfold SessionWF holdsValue
      simp [truthy, hci, hcs]

/-- C7: for every GET `/api/token` request on a reachable session (one that
holds both credentials or neither, the invariant maintained by `/authorize`,
the only session writer): without credentials the response is the HTTP 400
JSON error; with credentials it is a 200 JSON object with exactly the fields
`auth_url` (built from the session's client_id), `redirect_uri` and
`state_token` (the process StateToken). -/
theorem c7_api_token_handler (stateToken : Str) (s : Session)
    (hWF : SessionWF s) :
    (¬ holdsCredentials s →
      api_token stateToken s =
        (⟨400, [("error".data, "No client credentials in session".data)]⟩, s)) ∧
    (holdsCredentials s →
      api_token stateToken s =
        (⟨200, [("auth_url".data,
                  generate_auth_url stateToken (s.client_id.getD [])),
                ("redirect_uri".data, REDIRECT_URI),
                ("state_token".data, stateToken)]⟩, s)) := by
  constructor
  · intro hnot
    have hci : truthy s.client_id = false := by
      rw [← holdsValue_eq_truthy]
      cases hb : holdsValue s.client_id with
      | false => rfl
      | true => exact absurd ⟨hb, (hWF.symm.trans hb)⟩ hnot
    unfold api_token
    simp [hci]
  · intro hold
    have hci : truthy s.client_id = true := by
      rw [← holdsValue_eq_truthy]
      exact hold.1
    unfold api_token
    simp [hci]

/-- Witness for C7 at a session holding credentials and at one holding none. -/
theorem c7_witness :
    api_token sampleToken ⟨some "abc".data, some "xyz".data⟩ =
      (⟨200, [("auth_url".data, generate_auth_url sampleToken "abc".data),
              ("redirect_uri".data, REDIRECT_URI),
              ("state_token".data, sampleToken)]⟩,
       ⟨some "abc".data, some "xyz".data⟩) ∧
    api_token sampleToken ⟨none, none⟩ =
      (⟨400, [("error".data, "No client credentials in session".data)]⟩,
       ⟨none, none⟩) :=
  ⟨(c7_api_token_handler sampleToken ⟨some "abc".data, some "xyz".data⟩
      rfl).2 ⟨rfl, rfl⟩,
   (c7_api_token_handler sampleToken ⟨none, none⟩ rfl).1
      (fun h => Bool.noConfusion h.1)⟩

/-- Reduction of the `/callback` handler on a valid flow whose provider
returns an HTTP response: one exchange call is made and the response is the
success page on status 200 and the exchange-failure page otherwise. -/
theorem callback_valid_response (stateToken : Str) (s : Session)
    (q : CallbackParams) (cid sec c : Str) (status : Nat) (text : Str)
    (json : TokenData)
    (hv : callbackValidate stateToken s q = .valid cid sec c) :
    callback stateToken s q (.response status text json) =
      ((if status = 200 then ⟨200, successBody cid sec json⟩
        else ⟨400, exchangeFailedBody status text⟩ : Response), s, 1) := by
  unfold callback
  rw [hv]
  by_cases h : status = 200 <;> simp [h]

/-- Reduction of the `/callback` handler on a valid flow whose provider raises
an exception: one exchange call is made and the response is the 500 request
error page. -/
theorem callback_valid_exception (stateToken : Str) (s : Session)
    (q : CallbackParams) (cid sec c : Str) (msg : Str)
    (hv : callbackValidate stateToken s q = .valid cid sec c) :
    callback stateToken s q (.exception msg) =
      (⟨500, requestErrorBody msg⟩, s, 1) := by
  unfold callback
  rw [hv]

/-- C5: the `/callback` handler performs at most one token-exchange call per
request (no retry); and when the flow is valid, a non-200 provider status
yields an HTTP 400 response whose body contains both the status code and the
raw response body, while a network-level failure
(`requests.RequestException`) yields HTTP 500 whose body contains the
underlying failure description. -/
theorem c5_exchange_error_handling (stateToken : Str) (s : Session)
    (q : CallbackParams) :
    (∀ p, (callback stateToken s q p).2.2 ≤ 1) ∧
    (∀ cid sec c, callbackValidate stateToken s q = .valid cid sec c →
      (∀ status text json, status ≠ 200 →
        (callback stateToken s q (.response status text json)).1.status = 400 ∧
        Occurs (natRepr status)
          (callback stateToken s q (.response status text json)).1.body ∧
        Occurs text
          (callback stateToken s q (.response status text json)).1.body) ∧
      (∀ msg, (callback stateToken s q (.exception msg)).1.status = 500 ∧
        Occurs msg (callback stateToken s q (.exception msg)).1.body)) := by
  constructor
  · intro p
    unfold callback
    rcases callbackValidate stateToken s q with _ | e | _ | _ | ⟨a, b, c⟩
    · simp
    · simp
    · simp
    · simp
    · rcases p with ⟨st, tx, js⟩ | m
      · by_cases h200 : st = 200 <;> simp [h200]
      · simp
  · intro cid sec c hv
    constructor
    · intro status text json hst
      rw [callback_valid_response stateToken s q cid sec c status text json hv,
        if_neg hst]
      refine ⟨rfl, ?_, ?_⟩
      · exact ⟨exchangeFailedLit0,
          exchangeFailedLit1 ++ text ++ exchangeFailedLit2,
          by simp [exchangeFailedBody, List.append_assoc]⟩
      · exact ⟨exchangeFailedLit0 ++ natRepr status ++ exchangeFailedLit1,
          exchangeFailedLit2,
          by simp [exchangeFailedBody, List.append_assoc]⟩
    · intro msg
      rw [callback_valid_exception stateToken s q cid sec c msg hv]
      refine ⟨rfl, ?_⟩
      exact ⟨requestErrorLit0, requestErrorLit1, by simp [requestErrorBody]⟩

/-- Witness for C5 at a concrete valid flow: a 401 provider response yields a
400 page containing `401` and the raw body, an exception yields a 500 page
containing its message, and the call count is one in both cases. -/
theorem c5_witness :
    (callback sampleToken ⟨some "i".data, some "s".data⟩
        ⟨some "good123".data, some sampleToken, none⟩
        (.response 401 "invalid_client".data ⟨none, none⟩)).2.2 ≤ 1 ∧
    (callback sampleToken ⟨some "i".data, some "s".data⟩
        ⟨some "good123".data, some sampleToken, none⟩
        (.response 401 "invalid_client".data ⟨none, none⟩)).1.status = 400 ∧
    Occurs (natRepr 401)
      (callback sampleToken ⟨some "i".data, some "s".data⟩
        ⟨some "good123".data, some sampleToken, none⟩
        (.response 401 "invalid_client".data ⟨none, none⟩)).1.body ∧
    Occurs "invalid_client".data
      (callback sampleToken ⟨some "i".data, some "s".data⟩
        ⟨some "good123".data, some sampleToken, none⟩
        (.response 401 "invalid_client".data ⟨none, none⟩)).1.body ∧
    (callback sampleToken ⟨some "i".data, some "s".data⟩
        ⟨some "good123".data, some sampleToken, none⟩
        (.exception "boom".data)).1.status = 500 ∧
    Occurs "boom".data
      (callback sampleToken ⟨some "i".data, some "s".data⟩
        ⟨some "good123".data, some sampleToken, none⟩
        (.exception "boom".data)).1.body := by
  have h := c5_exchange_error_handling sampleToken
    ⟨some "i".data, some "s".data⟩ ⟨some "good123".data, some sampleToken, none⟩
  have hv : callbackValidate sampleToken ⟨some "i".data, some "s".data⟩
      ⟨some "good123".data, some sampleToken, none⟩ =
      .valid "i".data "s".data "good123".data := by decide
  have h2 := (h.2 _ _ _ hv).1 401 "invalid_client".data ⟨none, none⟩ (by decide)
  have h3 := (h.2 _ _ _ hv).2 "boom".data
  exact ⟨h.1 _, h2.1, h2.2.1, h2.2.2, h3.1, h3.2⟩

/-- C9: when the provider's token endpoint answers HTTP 200 with a parseable
JSON body, the `/callback` handler renders a 200 success page containing the
`access_token` value; when `refresh_token` is absent from the body the flow
still succeeds with HTTP 200 and the page shows the absence as a normal state
(the fixed `No refresh token (non-confidential client)` text), not an
error. -/
theorem c9_success_page (stateToken : Str) (s : Session) (q : CallbackParams)
    (cid sec c : Str) (hv : callbackValidate stateToken s q = .valid cid sec c)
    (text : Str) (json : TokenData) (acc : Str)
    (hacc : json.access_token = some acc) :
    (callback stateToken s q (.response 200 text json)).1.status = 200 ∧
    Occurs acc (callback stateToken s q (.response 200 text json)).1.body ∧
    (json.refresh_token = none →
      Occurs "No refresh token (non-confidential client)".data
        (callback stateToken s q (.response 200 text json)).1.body) := by
  rw [callback_valid_response stateToken s q cid sec c 200 text json hv,
    if_pos rfl]
  refine ⟨rfl, ?_, ?_⟩
  · exact ⟨successBodyLit0,
      successBodyLit1 ++
        json.refresh_token.getD
          ("No refresh token (non-confidential client)".data) ++
        successBodyLit2 ++ cid ++ successBodyLit3 ++ sec ++ successBodyLit4 ++
        acc ++ successBodyLit5 ++ json.refresh_token.getD [] ++
        successBodyLit6 ++ cid ++ successBodyLit7 ++ sec ++ successBodyLit8,
      by simp [successBody, pyOptStr, hacc, List.append_assoc]⟩
  · intro hrt
    exact ⟨successBodyLit0 ++ pyOptStr json.access_token ++ successBodyLit1,
      successBodyLit2 ++ cid ++ successBodyLit3 ++ sec ++ successBodyLit4 ++
        pyOptStr json.access_token ++ successBodyLit5 ++ successBodyLit6 ++
        cid ++ successBodyLit7 ++ sec ++ successBodyLit8,
      by simp [successBody, hrt, List.append_assoc]⟩

/-- Witness for C9 at a concrete valid flow whose provider returns 200 with an
access token and no refresh token. -/
theorem c9_witness :
    (callback sampleToken ⟨some "i".data, some "s".data⟩
        ⟨some "good123".data, some sampleToken, none⟩
        (.response 200 "raw".data ⟨some "tok_1".data, none⟩)).1.status = 200 ∧
    Occurs "tok_1".data
      (callback sampleToken ⟨some "i".data, some "s".data⟩
        ⟨some "good123".data, some sampleToken, none⟩
        (.response 200 "raw".data ⟨some "tok_1".data, none⟩)).1.body ∧
    Occurs "No refresh token (non-confidential client)".data
      (callback sampleToken ⟨some "i".data, some "s".data⟩
        ⟨some "good123".data, some sampleToken, none⟩
        (.response 200 "raw".data ⟨some "tok_1".data, none⟩)).1.body := by
  have hv : callbackValidate sampleToken ⟨some "i".data, some "s".data⟩
      ⟨some "good123".data, some sampleToken, none⟩ =
      .valid "i".data "s".data "good123".data := by decide
  have h := c9_success_page sampleToken ⟨some "i".data, some "s".data⟩
    ⟨some "good123".data, some sampleToken, none⟩ _ _ _ hv "raw".data
    ⟨some "tok_1".data, none⟩ "tok_1".data rfl
  exact ⟨h.1, h.2.1, h.2.2 rfl⟩

/-- The state-then-code checks of the reference machine coincide with the
source's `state != STATE_TOKEN` and `not code` checks. -/
theorem referenceTail_eq (stateToken : Str) (s : Session) (q : CallbackParams) :
    referenceTail stateToken s q =
      (if q.state ≠ some stateToken then Outcome.stateMismatch
       else if !truthy q.code then Outcome.missingCode
       else Outcome.valid (s.client_id.getD []) (s.client_secret.getD [])
         (q.code.getD [])) := by
  rcases q with ⟨qc, qs, qe⟩
  unfold referenceTail
  rcases qs with _ | st
  · simp
  · by_cases hst : st = stateToken
    · subst hst
      rcases qc with _ | c
      · simp [truthy]
      · by_cases hc : c.isEmpty <;> simp [truthy, hc]
    · simp [hst]

/-- The source's callback validation chain computes exactly the reference
state machine of the claim, on every session and every set of query
parameters. -/
theorem validate_eq_reference (stateToken : Str) (s : Session)
    (q : CallbackParams) :
    callbackValidate stateToken s q = callbackReference stateToken s q := by
  unfold callbackValidate callbackReference
  rw [referenceTail_eq]
  simp only [holdsValue_eq_truthy]
  by_cases h1 : (!truthy s.client_id || !truthy s.client_secret) = true
  · simp [h1]
  · simp only [h1, if_neg, Bool.not_eq_true]
    rcases hqe : q.error with _ | e
    · simp [truthy, hqe]
    · by_cases he : e.isEmpty <;> simp [truthy, hqe, he]

/-- C1: the `/callback` handler's outcome equals the reference state machine —
missing session credentials give SessionExpired (HTTP 400) regardless of query
parameters; then a present non-empty `error` gives AuthorizationDenied (HTTP
400) with a body containing the provider-supplied error string; then an absent
or mismatched `state` gives StateMismatch (HTTP 400); then an absent or empty
`code` gives MissingCode (HTTP 400); otherwise the flow is Valid and proceeds
to the token exchange — with the checks applied in exactly that order (the
order is the nesting of `callbackReference`). -/
theorem c1_callback_matches_reference (stateToken : Str) (s : Session)
    (q : CallbackParams) (p : ExchangeOutcome) :
    callbackValidate stateToken s q = callbackReference stateToken s q ∧
    (callbackValidate stateToken s q = .sessionExpired →
      (callback stateToken s q p).1 = ⟨400, sessionExpiredBody⟩) ∧
    (∀ e, callbackValidate stateToken s q = .authorizationDenied e →
      (callback stateToken s q p).1.status = 400 ∧
      Occurs e (callback stateToken s q p).1.body) ∧
    (callbackValidate stateToken s q = .stateMismatch →
      (callback stateToken s q p).1 = ⟨400, stateMismatchBody⟩) ∧
    (callbackValidate stateToken s q = .missingCode →
      (callback stateToken s q p).1 = ⟨400, missingCodeBody⟩) ∧
    (∀ cid sec c, callbackValidate stateToken s q = .valid cid sec c →
      (callback stateToken s q p).2.2 = 1) := by
  refine ⟨validate_eq_reference stateToken s q, ?_, ?_, ?_, ?_, ?_⟩
  · intro h
    unfold callback
    rw [h]
  · intro e h
    unfold callback
    rw [h]
    exact ⟨rfl, authorizationErrorLit0, authorizationErrorLit1, rfl⟩
  · intro h
    unfold callback
    rw [h]
  · intro h
    unfold callback
    rw [h]
  · intro cid sec c h
    rcases p with ⟨st, tx, js⟩ | m
    · rw [callback_valid_response stateToken s q cid sec c st tx js h]
    · rw [callback_valid_exception stateToken s q cid sec c m h]

/-- Witness for C1 at a concrete request carrying both a provider error and a
wrong state: the code outcome equals the reference outcome, and the response
is the 400 AuthorizationDenied page containing the error string (showing the
error check precedes the state check). -/
theorem c1_witness :
    callbackValidate sampleToken ⟨some "i".data, some "s".data⟩
        ⟨some "c".data, some "wrong".data, some "access_denied".data⟩ =
      callbackReference sampleToken ⟨some "i".data, some "s".data⟩
        ⟨some "c".data, some "wrong".data, some "access_denied".data⟩ ∧
    (callback sampleToken ⟨some "i".data, some "s".data⟩
        ⟨some "c".data, some "wrong".data, some "access_denied".data⟩
        (.response 200 [] ⟨none, none⟩)).1.status = 400 ∧
    Occurs "access_denied".data
      (callback sampleToken ⟨some "i".data, some "s".data⟩
        ⟨some "c".data, some "wrong".data, some "access_denied".data⟩
        (.response 200 [] ⟨none, none⟩)).1.body := by
  have h := c1_callback_matches_reference sampleToken
    ⟨some "i".data, some "s".data⟩
    ⟨some "c".data, some "wrong".data, some "access_denied".data⟩
    (.response 200 [] ⟨none, none⟩)
  have hd := h.2.2.1 "access_denied".data (by decide)
  exact ⟨h.1, hd.1, hd.2⟩

/-- Unfolding step of `percentDecode` on an ordinary character. -/
theorem percentDecode_cons (c : Char) (rest : Str) (h1 : c ≠ '%')
    (h2 : c ≠ '+') : percentDecode (c :: rest) = c :: percentDecode rest := by
  rw [percentDecode.eq_def]
  simp [h1, h2]

/-- Percent-decoding is the identity on strings free of `%` and `+`. -/
theorem percentDecode_id (l : Str) (h : ∀ c ∈ l, c ≠ '%' ∧ c ≠ '+') :
    percentDecode l = l := by
  induction l with
  | nil => rfl
  | cons c rest ih =>
    have hc := h c (List.mem_cons_self c rest)
    have ih2 := ih (fun d hd => h d (List.mem_cons_of_mem c hd))
    rw [percentDecode_cons c rest hc.1 hc.2, ih2]

/-- A separator-free prefix passes through `takeUntilChar` untouched. -/
theorem takeUntilChar_append (sep : Char) (pre xs : Str)
    (h : ∀ c ∈ pre, c ≠ sep) :
    takeUntilChar sep (pre ++ xs) = pre ++ takeUntilChar sep xs := by
  induction pre with
  | nil => simp
  | cons c rest ih =>
    have hc : c ≠ sep := h c (List.mem_cons_self c rest)
    have ih2 := ih (fun d hd => h d (List.mem_cons_of_mem c hd))
    simp [takeUntilChar, hc, ih2]

/-- `takeUntilChar` stops exactly at the first separator. -/
theorem takeUntilChar_stop (sep : Char) (pre xs : Str)
    (h : ∀ c ∈ pre, c ≠ sep) :
    takeUntilChar sep (pre ++ sep :: xs) = pre := by
  induction pre with
  | nil => simp [takeUntilChar]
  | cons c rest ih =>
    have hc : c ≠ sep := h c (List.mem_cons_self c rest)
    have ih2 := ih (fun d hd => h d (List.mem_cons_of_mem c hd))
    simp [takeUntilChar, hc, ih2]

/-- `afterFirstChar` returns exactly what follows the first separator. -/
theorem afterFirstChar_append (sep : Char) (pre xs : Str)
    (h : ∀ c ∈ pre, c ≠ sep) :
    afterFirstChar sep (pre ++ sep :: xs) = some xs := by
  induction pre with
  | nil => simp [afterFirstChar]
  | cons c rest ih =>
    have hc : c ≠ sep := h c (List.mem_cons_self c rest)
    have ih2 := ih (fun d hd => h d (List.mem_cons_of_mem c hd))
    simp [afterFirstChar, hc, ih2]

/-- Splitting a string that starts with a separator-free chunk yields that
chunk first. -/
theorem splitOnChar_append (sep : Char) (pre xs : Str)
    (h : ∀ c ∈ pre, c ≠ sep) :
    splitOnChar sep (pre ++ sep :: xs) = pre :: splitOnChar sep xs := by
  induction pre with
  | nil => simp [splitOnChar]
  | cons c rest ih =>
    have hc : c ≠ sep := h c (List.mem_cons_self c rest)
    have ih2 := ih (fun d hd => h d (List.mem_cons_of_mem c hd))
    simp [splitOnChar, hc, ih2]

/-- Looking up the key of the first query parameter of a URL recovers exactly
that parameter's value, whatever follows the first `&`. -/
theorem parseQuery_head_lookup (pre key v rest : Str)
    (hpre : ∀ c ∈ pre, c ≠ '?')
    (hkey : ∀ c ∈ key, c ≠ '=' ∧ c ≠ '&' ∧ c ≠ '#' ∧ c ≠ '%' ∧ c ≠ '+')
    (hv : ∀ c ∈ v, c ≠ '&' ∧ c ≠ '#' ∧ c ≠ '%' ∧ c ≠ '+') :
    List.lookup key
      (parseQuery (pre ++ '?' :: (key ++ '=' :: (v ++ '&' :: rest)))) =
      some v := by
  have hkeyEq : ∀ c ∈ key, c ≠ '=' := fun c hc => (hkey c hc).1
  have hnoHash : ∀ c ∈ (key ++ '=' :: v) ++ ['&'], c ≠ '#' := by
    intro c hc
    simp only [List.mem_append, List.mem_cons, List.mem_singleton,
      List.not_mem_nil, or_false] at hc
    rcases hc with (hk | rfl | hv') | rfl
    · exact (hkey c hk).2.2.1
    · decide
    · exact (hv c hv').2.1
    · decide
  have hnoAmp : ∀ c ∈ key ++ '=' :: v, c ≠ '&' := by
    intro c hc
    simp only [List.mem_append, List.mem_cons] at hc
    rcases hc with hk | rfl | hv'
    · exact (hkey c hk).2.1
    · decide
    · exact (hv c hv').1
  unfold parseQuery
  rw [afterFirstChar_append '?' pre _ hpre]
  simp only []
  have hshape : key ++ '=' :: (v ++ '&' :: rest) =
      ((key ++ '=' :: v) ++ ['&']) ++ rest := by
    simp [List.append_assoc]
  rw [hshape,
    takeUntilChar_append '#' ((key ++ '=' :: v) ++ ['&']) rest hnoHash]
  have hshape2 : ((key ++ '=' :: v) ++ ['&']) ++ takeUntilChar '#' rest =
      (key ++ '=' :: v) ++ '&' :: takeUntilChar '#' rest := by
    simp [List.append_assoc]
  rw [hshape2,
    splitOnChar_append '&' (key ++ '=' :: v) (takeUntilChar '#' rest) hnoAmp]
  simp only [List.filterMap_cons]
  rw [afterFirstChar_append '=' key v hkeyEq,
    takeUntilChar_stop '=' key v hkeyEq,
    percentDecode_id key
      (fun c hc => ⟨(hkey c hc).2.2.2.1, (hkey c hc).2.2.2.2⟩)]
  simp only []
  rw [percentDecode_id v (fun c hc => ⟨(hv c hc).2.2.1, (hv c hc).2.2.2⟩)]
  simp [List.lookup]

/-- Counterexample to C3 as stated: the builder performs no percent-encoding,
so for the submitted client_id `a&b` the client_id recovered by parsing the
generated URL's query string is `a`, not `a&b` — the round-trip fails on a
client_id containing `&` (shown at a sample StateToken; the token value is
irrelevant to the parse of the first query parameter). -/
theorem c3_counterexample :
    recoverClientId (generate_auth_url sampleToken "a&b".data) =
      some "a".data ∧
    some "a".data ≠ some "a&b".data := by
  constructor
  · decide
  · decide

/-- C3 as amended: `generate_auth_url` interpolates parameters verbatim with
no percent-encoding, so the round-trip holds exactly for client_id values free
of the URL-special characters `&`, `%`, `+` and `#` (values containing `=` or
spaces still round-trip, since nothing is encoded); it fails for values
containing `&`, as the counterexample shows. -/
theorem c3_roundtrip_when_urlsafe (stateToken cid : Str)
    (h : ∀ c ∈ cid, c ≠ '&' ∧ c ≠ '%' ∧ c ≠ '+' ∧ c ≠ '#') :
    recoverClientId (generate_auth_url stateToken cid) = some cid := by
  have e1 : "https://auth.monzo.com/?".data =
      "https://auth.monzo.com/".data ++ ['?'] := by decide
  have e2 : "client_id=".data = "client_id".data ++ ['='] := by decide
  have e6 : "&".data = ['&'] := by decide
  have hurl : generate_auth_url stateToken cid =
      "https://auth.monzo.com/".data ++ '?' ::
        ("client_id".data ++ '=' ::
          (cid ++ '&' ::
            ("redirect_uri=".data ++ REDIRECT_URI ++ "&".data ++
             "response_type=code&".data ++ "state=".data ++ stateToken))) := by
    unfold generate_auth_url
    rw [e1, e2, e6]
    simp [List.append_assoc]
  unfold recoverClientId
  rw [hurl]
  exact parseQuery_head_lookup "https://auth.monzo.com/".data "client_id".data
    cid _ (by decide) (by decide)
    (fun c hc => ⟨(h c hc).1, (h c hc).2.2.2, (h c hc).2.1, (h c hc).2.2.1⟩)

/-- Witness for the amended C3 at a concrete client_id containing a space and
an equals sign: both survive the round-trip verbatim. -/
theorem c3_witness :
    (∀ c ∈ "a b=c".data, c ≠ '&' ∧ c ≠ '%' ∧ c ≠ '+' ∧ c ≠ '#') ∧
    recoverClientId (generate_auth_url sampleToken "a b=c".data) =
      some "a b=c".data :=
  ⟨by decide, c3_roundtrip_when_urlsafe sampleToken "a b=c".data (by decide)⟩

/-- C4: for every non-empty client_id, the generated authorization URL is the
provider's authorization endpoint followed by `?` and exactly the
serialization of the query parameters `client_id=<submitted>`,
`redirect_uri=<fixed redirect URI>`, `response_type=code` and
`state=<the process StateToken>`, in that order — in particular the `state`
component of the URL is exactly the process StateToken. -/
theorem c4_auth_url_exact_params (stateToken cid : Str) (h : cid ≠ []) :
    generate_auth_url stateToken cid =
      "https://auth.monzo.com/".data ++ "?".data ++
        querySerialize [("client_id".data, cid),
                        ("redirect_uri".data, REDIRECT_URI),
                        ("response_type".data, "code".data),
                        ("state".data, stateToken)] := by
  have e1 : "https://auth.monzo.com/?".data =
      "https://auth.monzo.com/".data ++ "?".data := by decide
  have e2 : "client_id=".data = "client_id".data ++ ['='] := by decide
  have e3 : "redirect_uri=".data = "redirect_uri".data ++ ['='] := by decide
  have e4 : "response_type=code&".data =
      "response_type".data ++ ['='] ++ "code".data ++ ['&'] := by decide
  have e5 : "state=".data = "state".data ++ ['='] := by decide
  have e6 : "&".data = ['&'] := by decide
  unfold generate_auth_url
  rw [e1, e2, e3, e4, e5, e6]
  simp [querySerialize, List.append_assoc]

/-- Witness for C4 at a concrete non-empty client_id. -/
theorem c4_witness :
    ("abc".data ≠ ([] : Str)) ∧
    generate_auth_url sampleToken "abc".data =
      "https://auth.monzo.com/".data ++ "?".data ++
        querySerialize [("client_id".data, "abc".data),
                        ("redirect_uri".data, REDIRECT_URI),
                        ("response_type".data, "code".data),
                        ("state".data, sampleToken)] :=
  ⟨by decide, c4_auth_url_exact_params sampleToken "abc".data (by decide)⟩

end MonzoAuth
